import Mathlib

/-!
Verification of `src/keyword_traffic_estimator.py` against its
natural-language specification.

The script is intended as a linear extract-transform-load pipeline:

  1. load CSV rows (columns "Type", "Keyword", "Max CPC") into
     keyword-estimate-request records;
  2. chunk the request list (`_chunks`, module constant
     `_MAX_KEYWORD_REQUESTS = 500`) and call the external
     TrafficEstimatorService once per chunk;
  3. pair each returned min/max estimate with its keyword by popping from
     the shared request list while iterating the estimates in reverse,
     aggregate the min/max ranges into point metrics, reverse the
     accumulated rows, and write them as a CSV table.

As written, however, the function cannot complete any run:

  * line 49 evaluates `os.path.dirname(input_filepath)`, but the module
    imports only csv, sys, time and AdWordsClient — `os` is never
    imported, so every call raises NameError at its first statement;
  * even granting that import, lines 83-84 extract
    `keywordEstimates[0]` — a single estimate record — and line 85's
    `reversed(...)` of it raises TypeError on a response of the
    documented shape;
  * and lines 105-106 evaluate `"...Batch %s" % index + 1`, which is
    `(str % index) + 1`: TypeError when at least one batch ran,
    UnboundLocalError (the loop index was never assigned) when none did.
    Execution therefore never passes line 105; lines 107-117 (reverse,
    path derivation, header, CSV write) are dead code.

Modelling conventions:

  * Numeric estimate fields are modelled as `ℚ` (the script enables true
    division via `from __future__ import division`; the spec's formulas
    are exact arithmetic, which `ℚ` captures without float rounding).
  * The external collaborator is an oracle `svc : TrafficRequest → PyV`
    returning the `estimates` value as the code holds it after line 82's
    trailing `[0]` on the client library's return value; the unchecked
    subscripting of lines 83-84 and the `reversed(...)` of line 85 are
    modelled on dynamic `PyV` values, so response-shape errors surface as
    the raw Python errors they are.
  * `get_traffic_estimates` models the function as called (line 49 first:
    NameError); `pipeline_from_line_50` models the body from line 50 on,
    granting line 49 a directory value, so that the later failure points
    can be analysed.  Its result carries the requests submitted to the
    service before termination, and the outcome.
  * CSV parsing/writing primitives and file handles are external
    collaborators per the spec's scope (section 1); the pure progress
    strings written at lines 62 and 118 are no-ops, but the *argument* of
    the write at lines 105-106 is modelled, because evaluating it raises.
  * `PyErr` includes the raw Python errors the modelled fragment can
    raise (UnboundLocalError is Python's NameError subclass for unbound
    locals).  The constructors `emptyResultError` and
    `estimationServiceError` are modelled from the spec (section 7 error
    taxonomy); no such classes exist anywhere in the source, and they are
    present only so that the spec's error-handling claims can be stated
    and compared with the code.
-/

/-- Python errors observable in the modelled fragment, plus the two
spec-taxonomy names (modelled from the spec, section 7) needed to state the
error-handling claims. -/
inductive PyErr where
  | keyError
  | indexError
  | typeError
  | nameError
  | unboundLocalError
  | emptyResultError
  | estimationServiceError
  deriving DecidableEq, Repr

/-- A parsed CSV input row.  `csv.DictReader` yields every field as a
string; the fields mirror the columns "Type", "Keyword" and "Max CPC"
(line 52-60 of the source). -/
structure CsvRow where
  matchType : String
  keywordText : String
  maxCpcStr : String
  deriving DecidableEq, Repr

/-- A Python value that is either an integer or a string: the type of the
`microAmount` field as the source actually computes it (line 60 multiplies
the *string* CSV field by 1000000). -/
inductive PyNum where
  | int (n : ℤ)
  | str (s : String)
  deriving DecidableEq, Repr

/-- Python string repetition `s * n`. -/
def strRepeat (n : ℕ) (s : String) : String :=
  String.join (List.replicate n s)

/-- Python `n * v` for an integer literal `n`: integer multiplication on
integers, sequence repetition on strings (the semantics line 60 of the
source actually hits, since CSV fields are strings). -/
def pyNumMul (n : ℕ) : PyNum → PyNum
  | PyNum.int m => PyNum.int (n * m)
  | PyNum.str s => PyNum.str (strRepeat n s)

/-- The inner `"keyword"` dict of a keyword-estimate request
(lines 54-57). -/
structure KeywordSpec where
  xsi_type : String
  matchType : String
  text : String
  deriving DecidableEq, Repr

/-- The `"maxCpc"` Money dict of a keyword-estimate request
(lines 58-60). -/
structure MoneyVal where
  xsi_type : String
  microAmount : PyNum
  deriving DecidableEq, Repr

/-- One keyword-estimate request as built by the loader loop
(lines 53-61). -/
structure KeywordEstimateRequest where
  keyword : KeywordSpec
  maxCpc : MoneyVal
  deriving DecidableEq, Repr

/-- The loader body for one CSV row (lines 53-61): note that
`microAmount` is `1000000 * row["Max CPC"]` on the *string* field. -/
def mkKeywordRequest (row : CsvRow) : KeywordEstimateRequest :=
  { keyword := { xsi_type := "Keyword"
               , matchType := row.matchType
               , text := row.keywordText }
  , maxCpc := { xsi_type := "Money"
              , microAmount := pyNumMul 1000000 (PyNum.str row.maxCpcStr) } }

/-- `_MAX_KEYWORD_REQUESTS` (line 20). -/
def _MAX_KEYWORD_REQUESTS : ℕ := 500

/-- Recursion core of `_chunks` with explicit fuel.  The Python generator
is `for index in xrange(0, len(iterable), chunk_size): yield
iterable[index: index + chunk_size]`; taking the first `chunk_size`
elements and recursing on the rest yields the same slices.  Fuel equal to
the list length suffices for every positive chunk size (each step consumes
at least one element); for chunk size 0 Python's `xrange` raises, which is
outside the claimed domain. -/
def chunksFuel {α : Type} : ℕ → List α → ℕ → List (List α)
  | 0, _, _ => []
  | _, [], _ => []
  | fuel + 1, l, chunk_size =>
      l.take chunk_size :: chunksFuel fuel (l.drop chunk_size) chunk_size

/-- `_chunks(iterable, chunk_size)` (lines 23-25), as the list of yielded
slices. -/
def _chunks {α : Type} (iterable : List α) (chunk_size : ℕ) : List (List α) :=
  chunksFuel iterable.length iterable chunk_size

/-- The lengths of the chunks of a length-`n` list, computed purely
arithmetically (helper for evaluating chunk shapes without materialising
lists). -/
def lenChunksFuel : ℕ → ℕ → ℕ → List ℕ
  | 0, _, _ => []
  | _, 0, _ => []
  | fuel + 1, n, chunk_size => min chunk_size n :: lenChunksFuel fuel (n - chunk_size) chunk_size

/-- Estimated min (or max) statistics for one keyword, with the exact
field shapes the aggregation loop reads (lines 89-103): `averageCpc` is a
Money record read via `["microAmount"]`, `totalCost` is read directly. -/
structure EstimateStats where
  impressionsPerDay : ℚ
  clicksPerDay : ℚ
  clickThroughRate : ℚ
  averageCpcMicroAmount : ℚ
  totalCost : ℚ
  averagePosition : ℚ
  deriving DecidableEq, Repr

/-- One per-keyword min/max estimate pair returned by the service. -/
structure KwEstimate where
  min : EstimateStats
  max : EstimateStats
  deriving DecidableEq, Repr

/-- One output row as built by lines 87-104 of the source.  The value
stored under the "Keyword" column key is the *whole* popped
keyword-estimate-request record (line 88), not the keyword text. -/
structure KeywordData where
  Keyword : KeywordEstimateRequest
  MonthlyImpressions : ℚ
  MonthlyClicks : ℚ
  CTR : ℚ
  AverageCPC : ℚ
  Cost : ℚ
  AveragePosition : ℚ
  deriving DecidableEq, Repr

/-- The aggregation of one (keyword request, min/max estimate) pair into
one output row (lines 87-104).  `30.4` is `304/10`; the cost divisor is
the source's `100000` (not `1000000`). -/
def aggregate (keyword : KeywordEstimateRequest) (estimate : KwEstimate) : KeywordData :=
  { Keyword := keyword
  , MonthlyImpressions :=
      ((estimate.min.impressionsPerDay + estimate.max.impressionsPerDay) / 2) * (304 / 10)
  , MonthlyClicks :=
      ((estimate.min.clicksPerDay + estimate.max.clicksPerDay) / 2) * (304 / 10)
  , CTR := (estimate.min.clickThroughRate + estimate.max.clickThroughRate) / 2
  , AverageCPC :=
      ((estimate.min.averageCpcMicroAmount + estimate.max.averageCpcMicroAmount) / 2) / 1000000
  , Cost := ((estimate.min.totalCost + estimate.max.totalCost) / 2) / 100000
  , AveragePosition :=
      (estimate.min.averagePosition + estimate.max.averagePosition) / 2 }

/-- The min estimate of the spec's aggregation example (section 8). -/
def exampleMin : EstimateStats :=
  { impressionsPerDay := 100
  , clicksPerDay := 10
  , clickThroughRate := 1 / 10
  , averageCpcMicroAmount := 500000
  , totalCost := 5000000
  , averagePosition := 2 }

/-- The max estimate of the spec's aggregation example (section 8). -/
def exampleMax : EstimateStats :=
  { impressionsPerDay := 200
  , clicksPerDay := 20
  , clickThroughRate := 2 / 10
  , averageCpcMicroAmount := 1500000
  , totalCost := 15000000
  , averagePosition := 4 }

/-- The spec's example min/max estimate pair. -/
def exampleEstimate : KwEstimate :=
  { min := exampleMin, max := exampleMax }

/-- One targeting criterion (lines 74-81): a Location or Language dict
with an id. -/
structure Criterion where
  xsi_type : String
  id : ℤ
  deriving DecidableEq, Repr

/-- One `adGroupEstimateRequests` entry (lines 71-73). -/
structure AdGroupEstimateRequest where
  keywordEstimateRequests : List KeywordEstimateRequest
  deriving DecidableEq, Repr

/-- One `campaignEstimateRequests` entry (lines 70-81). -/
structure CampaignEstimateRequest where
  adGroupEstimateRequests : List AdGroupEstimateRequest
  criteria : List Criterion
  deriving DecidableEq, Repr

/-- The selector passed to `traffic_estimator_service.get` (lines 69-82). -/
structure TrafficRequest where
  campaignEstimateRequests : List CampaignEstimateRequest
  deriving DecidableEq, Repr

/-- The request built for one service call (lines 69-81).  Faithful to the
source: the keyword list passed in is `keyword_estimate_requests` — the
whole current request list — NOT the chunk bound to the loop variable
`keywords`, which the body never uses. -/
def buildRequest (keyword_estimate_requests : List KeywordEstimateRequest)
    (location_ID language_ID : ℤ) : TrafficRequest :=
  { campaignEstimateRequests :=
      [ { adGroupEstimateRequests := [ { keywordEstimateRequests := keyword_estimate_requests } ]
        , criteria := [ { xsi_type := "Location", id := location_ID }
                      , { xsi_type := "Language", id := language_ID } ] } ] }

/-- A dynamic Python value, for modelling the nested response shape the
service returns and the unchecked lookups the caller performs on it
(lines 82-84). -/
inductive PyV where
  | num (q : ℚ)
  | str (s : String)
  | list (items : List PyV)
  | dict (entries : List (String × PyV))

/-- Python `d[k]`: the value when `d` is a dict containing `k`, `KeyError`
when the key is missing, `TypeError` when `d` is not a dict. -/
def pyGetKey : PyV → String → Except PyErr PyV
  | PyV.dict entries, k =>
      match entries.lookup k with
      | some v => Except.ok v
      | none => Except.error PyErr.keyError
  | _, _ => Except.error PyErr.typeError

/-- Python `l[i]` for a nonnegative index: the element when `l` is a list
long enough, `IndexError` out of range, `TypeError` when `l` is not a
sequence. -/
def pyGetIdx : PyV → ℕ → Except PyErr PyV
  | PyV.list items, i =>
      match items.get? i with
      | some v => Except.ok v
      | none => Except.error PyErr.indexError
  | _, _ => Except.error PyErr.typeError

/-- Error propagation through successive Python subscript operations. -/
def exBind : Except PyErr PyV → (PyV → Except PyErr PyV) → Except PyErr PyV
  | Except.error e, _ => Except.error e
  | Except.ok v, f => f v

/-- Lines 83-84 of the source, applied to the service response:
`estimates["campaignEstimates"][0]["adGroupEstimates"][0]["keywordEstimates"][0]`.
Note the final `[0]`: the caller takes the FIRST entry of the per-keyword
estimate list. -/
def extract_keyword_estimates (estimates : PyV) : Except PyErr PyV :=
  exBind (exBind (exBind (exBind (exBind
      (pyGetKey estimates "campaignEstimates") (fun v => pyGetIdx v 0))
      (fun v => pyGetKey v "adGroupEstimates")) (fun v => pyGetIdx v 0))
      (fun v => pyGetKey v "keywordEstimates")) (fun v => pyGetIdx v 0)

/-- Modelled from the spec (section 4.3): "Extract the nested per-keyword
estimate list from the single-campaign/single-ad-group response shape the
collaborator returns" — the extraction the claim describes, which stops at
`["keywordEstimates"]` and returns the full list. -/
def extract_keyword_estimates_spec (estimates : PyV) : Except PyErr PyV :=
  exBind (exBind (exBind (exBind
      (pyGetKey estimates "campaignEstimates") (fun v => pyGetIdx v 0))
      (fun v => pyGetKey v "adGroupEstimates")) (fun v => pyGetIdx v 0))
      (fun v => pyGetKey v "keywordEstimates")

/-- Python `reversed(x)` requires a sequence: reversal on a list,
`TypeError` otherwise — in particular on a single estimate record (dict),
which is what line 85 iterates after the extraction above. -/
def pyReversed : PyV → Except PyErr (List PyV)
  | PyV.list items => Except.ok items.reverse
  | _ => Except.error PyErr.typeError

/-- A response of exactly the shape the spec's collaborator contract
describes — one campaign estimate holding one ad-group estimate holding
the per-keyword estimate list. -/
def mkEstimatesResponse (kwEstimates : List PyV) : PyV :=
  PyV.dict [("campaignEstimates", PyV.list [PyV.dict
    [("adGroupEstimates", PyV.list [PyV.dict
      [("keywordEstimates", PyV.list kwEstimates)]])]])]

/-- A first sample per-keyword estimate record. -/
def sampleEstimateRecord1 : PyV :=
  PyV.dict [("min", PyV.num 1), ("max", PyV.num 2)]

/-- A second sample per-keyword estimate record. -/
def sampleEstimateRecord2 : PyV :=
  PyV.dict [("min", PyV.num 3), ("max", PyV.num 4)]

/-- Read one numeric metric `side[key]` as the arithmetic of lines 89-103
consumes it: `KeyError` when the key is absent, `TypeError` when the value
is not a number (Python raises it at the ensuing arithmetic). -/
def pyNumField (side : PyV) (key : String) : Except PyErr ℚ :=
  match pyGetKey side key with
  | Except.error e => Except.error e
  | Except.ok (PyV.num q) => Except.ok q
  | Except.ok _ => Except.error PyErr.typeError

/-- Read `side["averageCpc"]["microAmount"]` (lines 97-99). -/
def pyCpcField (side : PyV) : Except PyErr ℚ :=
  match pyGetKey side "averageCpc" with
  | Except.error e => Except.error e
  | Except.ok money => pyNumField money "microAmount"

/-- The reads lines 89-103 perform on one side (`estimate["min"]` or
`estimate["max"]`): the six metrics, with `averageCpc` read through its
Money `microAmount` and `totalCost` read directly.  (The source
interleaves min and max reads metric by metric; the model reads a record
at a time — on malformed records only which raw error surfaces first can
differ, never whether one does.) -/
def decodeStats (side : PyV) : Except PyErr EstimateStats :=
  pyNumField side "impressionsPerDay" >>= fun ipd =>
  pyNumField side "clicksPerDay" >>= fun cpd =>
  pyNumField side "clickThroughRate" >>= fun ctr =>
  pyCpcField side >>= fun cpc =>
  pyNumField side "totalCost" >>= fun tc =>
  pyNumField side "averagePosition" >>= fun ap =>
  Except.ok { impressionsPerDay := ipd
            , clicksPerDay := cpd
            , clickThroughRate := ctr
            , averageCpcMicroAmount := cpc
            , totalCost := tc
            , averagePosition := ap }

/-- One dynamic per-keyword estimate, as the loop body of lines 87-104
reads it: a dict with `min` and `max` records. -/
def decodeEstimate (v : PyV) : Except PyErr KwEstimate :=
  pyGetKey v "min" >>= fun mn =>
  decodeStats mn >>= fun smin =>
  pyGetKey v "max" >>= fun mx =>
  decodeStats mx >>= fun smax =>
  Except.ok { min := smin, max := smax }

/-- A calendar date for `time.strftime`. -/
structure PyDate where
  day : ℕ
  month : ℕ
  year : ℕ
  deriving DecidableEq, Repr

/-- Zero-padded two-digit rendering (strftime `%d` / `%m`). -/
def pad2 (n : ℕ) : String :=
  if n < 10 then "0" ++ toString n else toString n

/-- Zero-padded four-digit rendering (strftime `%Y`). -/
def pad4 (n : ℕ) : String :=
  if n < 10 then "000" ++ toString n
  else if n < 100 then "00" ++ toString n
  else if n < 1000 then "0" ++ toString n
  else toString n

/-- `time.strftime("%d-%m-%Y")` at a given date. -/
def strftime_dmY (d : PyDate) : String :=
  pad2 d.day ++ "-" ++ pad2 d.month ++ "-" ++ pad4 d.year

/-- Split a character list on a separator character (structural, so that
concrete paths evaluate inside the kernel). -/
def splitOnChar (c : Char) (l : List Char) : List (List Char) :=
  l.foldr
    (fun a r =>
      match r with
      | [] => [[a]]
      | g :: gs => if a = c then [] :: g :: gs else (a :: g) :: gs)
    [[]]

/-- Join character-list fragments with a separator. -/
def joinSep (sep : List Char) : List (List Char) → List Char
  | [] => []
  | [g] => g
  | g :: gs => g ++ sep ++ joinSep sep gs

/-- `os.path.dirname` (POSIX behaviour, adequate for the modelled paths):
everything before the final separator, empty if there is none.  This is
the value line 49 *would* compute, had the module imported `os`. -/
def os_path_dirname (p : String) : String :=
  let parts := splitOnChar (Char.ofNat 47) p.data
  if parts.length ≤ 1 then "" else String.mk (joinSep [Char.ofNat 47] parts.dropLast)

/-- `os.path.join` for one relative component. -/
def os_path_join (dir name : String) : String :=
  if dir = "" then name
  else if dir.data.getLast? = some (Char.ofNat 47) then dir ++ name
  else dir ++ "/" ++ name

/-- Lines 108-110: the output path — the supplied one, or the derived
timestamped name joined onto `dir_path` (the line-49 directory of the
input file).  Dead code in the program: execution never passes
line 105. -/
def derive_output_filepath (dir_path : String) (output_filepath : Option String)
    (today : PyDate) : String :=
  match output_filepath with
  | none => os_path_join dir_path
      ("Keyword Traffic Estimates - " ++ strftime_dmY today ++ ".csv")
  | some p => p

/-- The keys of every `keywords_data` dict, in insertion order
(lines 87-104).  (Python 2 dict key iteration order is unspecified; none
of the claims depend on the header's order, only on its field set.) -/
def output_field_names : List String :=
  ["Keyword", "Monthly Impressions", "Monthly Clicks", "CTR", "Average CPC",
   "Cost", "Average Position"]

/-- What a completed run would hand to the CSV writer (lines 108-117):
the output path, the header names and the data rows.  No execution of the
source can construct this — see `pipeline_from_line_50_fails`. -/
structure RunOutput where
  output_filepath : String
  field_names : List String
  rows_written : List KeywordData
  deriving Repr

/-- Lines 105-106: `sys.stdout.write("...Batch %s" % index + 1)`.
`%` binds tighter than `+`, so the argument is `(str % index) + 1`: with
at least one loop iteration `index` is bound and the expression raises
TypeError (str + int); with zero iterations the read of `index` raises
UnboundLocalError.  Either way the function aborts here, before
line 107. -/
def line105_progress_message (nBatches : ℕ) : Except PyErr Unit :=
  if nBatches = 0 then Except.error PyErr.unboundLocalError
  else Except.error PyErr.typeError

/-- The pairing loop of one batch (lines 85-104), applied to the item list
Python's `reversed(...)` yields.  Each iteration pops the last entry of
the shared `keyword_estimate_requests` list (line 86, `IndexError` when it
is empty), reads the estimate's min/max fields, and appends the aggregated
row to `keywords_data` (lines 87-104). -/
def consumeD : List PyV → List KeywordEstimateRequest → List KeywordData →
    Except PyErr (List KeywordEstimateRequest × List KeywordData)
  | [], reqs, data => Except.ok (reqs, data)
  | item :: rest, reqs, data =>
      match reqs.getLast? with
      | none => Except.error PyErr.indexError
      | some keyword =>
          match decodeEstimate item with
          | Except.error e => Except.error e
          | Except.ok estimate =>
              consumeD rest reqs.dropLast (data ++ [aggregate keyword estimate])

/-- The batch loop (lines 67-104), by remaining iteration count.  The
generator `_chunks(keyword_estimate_requests, _MAX_KEYWORD_REQUESTS)`
captures the list length at its first resumption, so the number of loop
iterations is the number of chunks of the original list; the chunk bound
to `keywords` is unused by the body, so only that count matters.  Each
iteration builds the request from the *whole current* request list
(line 72), calls the service, runs the extraction of lines 83-84, feeds
the result to `reversed(...)` (line 85) and then to the pairing loop.
Returns the log of submitted requests together with either the first
raised error or the final (request list, keywords_data) state. -/
def runBatchesD (svc : TrafficRequest → PyV) (location_ID language_ID : ℤ) :
    ℕ → List KeywordEstimateRequest → List KeywordData → List TrafficRequest →
    List TrafficRequest × Except PyErr (List KeywordEstimateRequest × List KeywordData)
  | 0, reqs, data, log => (log, Except.ok (reqs, data))
  | n + 1, reqs, data, log =>
      let req := buildRequest reqs location_ID language_ID
      let estimates := svc req
      match extract_keyword_estimates estimates with
      | Except.error e => (log ++ [req], Except.error e)
      | Except.ok keyword_estimates =>
          match pyReversed keyword_estimates with
          | Except.error e => (log ++ [req], Except.error e)
          | Except.ok items =>
              match consumeD items reqs data with
              | Except.error e => (log ++ [req], Except.error e)
              | Except.ok (reqs2, data2) =>
                  runBatchesD svc location_ID language_ID n reqs2 data2 (log ++ [req])

/-- The observable behaviour of one execution of the body: the requests
submitted to the service before termination, and the outcome. -/
structure PipelineResult where
  requests_sent : List TrafficRequest
  outcome : Except PyErr RunOutput

/-- The body of `get_traffic_estimates` from line 50 onward, granting
line 49 a `dir_path` value (the program itself never gets that far — see
`line49_dir_path`).  Loader (lines 50-61), batch loop (lines 67-104), the
progress message of lines 105-106 — which always raises — and, beyond it,
the dead code of lines 107-117 (reverse, path derivation, field names
with `IndexError` on an empty result list, CSV write), kept for
structural fidelity. -/
def pipeline_from_line_50 (svc : TrafficRequest → PyV) (csvRows : List CsvRow)
    (output_filepath : Option String) (location_ID language_ID : ℤ)
    (today : PyDate) (batchSize : ℕ) (dir_path : String) : PipelineResult :=
  let keyword_estimate_requests := csvRows.map mkKeywordRequest
  let nBatches := (_chunks keyword_estimate_requests batchSize).length
  match runBatchesD svc location_ID language_ID nBatches keyword_estimate_requests [] [] with
  | (log, Except.error e) => { requests_sent := log, outcome := Except.error e }
  | (log, Except.ok (_, keywords_data)) =>
      match line105_progress_message nBatches with
      | Except.error e => { requests_sent := log, outcome := Except.error e }
      | Except.ok _ =>
          let rows := keywords_data.reverse
          let path := derive_output_filepath dir_path output_filepath today
          match rows with
          | [] => { requests_sent := log, outcome := Except.error PyErr.indexError }
          | _ => { requests_sent := log
                 , outcome := Except.ok { output_filepath := path
                                        , field_names := output_field_names
                                        , rows_written := rows } }

/-- Line 49: `dir_path = os.path.dirname(input_filepath)`.  The module's
imports are csv, sys, time and AdWordsClient — `os` is never imported —
so this name lookup raises NameError on every call.  (The value the line
intends is `os_path_dirname input_filepath`.) -/
def line49_dir_path (input_filepath : String) : Except PyErr String :=
  Except.error PyErr.nameError

/-- `get_traffic_estimates` (lines 28-119) over already-parsed CSV rows,
with the external service as the oracle `svc` and the batch size as a
parameter (the source passes the module constant `_MAX_KEYWORD_REQUESTS`;
the spec treats the maximum batch size as configurable with default 500).
The first statement, line 49, raises NameError, so every call fails
there. -/
def get_traffic_estimates (svc : TrafficRequest → PyV) (csvRows : List CsvRow)
    (input_filepath : String) (output_filepath : Option String)
    (location_ID language_ID : ℤ) (today : PyDate) (batchSize : ℕ) :
    Except PyErr RunOutput :=
  match line49_dir_path input_filepath with
  | Except.error e => Except.error e
  | Except.ok dir_path =>
      (pipeline_from_line_50 svc csvRows output_filepath location_ID language_ID
        today batchSize dir_path).outcome

/-- A service oracle answering any pipeline-built request with a response
of exactly the spec's documented shape: one campaign estimate, one
ad-group estimate, and one copy of a fixed estimate record per submitted
keyword-estimate request (the spec's section-3 invariant). -/
def svcSpecShaped (e : PyV) (req : TrafficRequest) : PyV :=
  match req.campaignEstimateRequests with
  | [c] =>
      match c.adGroupEstimateRequests with
      | [a] => mkEstimatesResponse (a.keywordEstimateRequests.map (fun _ => e))
      | _ => mkEstimatesResponse []
  | _ => mkEstimatesResponse []

/-- The 501-row input used to exhibit the request-construction defect. -/
def rows501 : List CsvRow :=
  (List.range 501).map (fun i => CsvRow.mk "EXACT" (toString i) "1")

lemma lenChunksFuel_zero_n (fuel B : ℕ) : lenChunksFuel fuel 0 B = [] := by
  cases fuel <;> simp [lenChunksFuel]

lemma chunksFuel_map_length {α : Type} :
    ∀ (fuel : ℕ) (l : List α) (B : ℕ),
      (chunksFuel fuel l B).map List.length = lenChunksFuel fuel l.length B := by
  intro fuel
  induction fuel with
  | zero => intro l B; cases l <;> simp [chunksFuel, lenChunksFuel]
  | succ f ih =>
      intro l B
      cases l with
      | nil => simp [chunksFuel, lenChunksFuel]
      | cons a t =>
          simp only [chunksFuel, List.map_cons, lenChunksFuel, List.length_cons]
          rw [List.length_take, ih ((a :: t).drop B) B]
          simp [List.length_drop]

lemma _chunks_map_length {α : Type} (l : List α) (B : ℕ) :
    (_chunks l B).map List.length = lenChunksFuel l.length l.length B :=
  chunksFuel_map_length l.length l B

lemma chunksFuel_flatten {α : Type} :
    ∀ (fuel : ℕ) (l : List α) (B : ℕ), 0 < B → l.length ≤ fuel →
      (chunksFuel fuel l B).flatten = l := by
  intro fuel
  induction fuel with
  | zero =>
      intro l B _ hlen
      have : l = [] := List.length_eq_zero.mp (Nat.le_zero.mp hlen)
      subst this; rfl
  | succ f ih =>
      intro l B hB hlen
      cases l with
      | nil => rfl
      | cons a t =>
          simp only [chunksFuel, List.flatten_cons]
          rw [ih ((a :: t).drop B) B hB
              (by simp only [List.length_drop, List.length_cons] at *; omega)]
          exact List.take_append_drop B (a :: t)

/-- Concatenating the chunks restores the input (for positive chunk
size). -/
lemma _chunks_flatten {α : Type} (l : List α) (B : ℕ) (hB : 0 < B) :
    (_chunks l B).flatten = l :=
  chunksFuel_flatten l.length l B hB le_rfl

lemma lenChunksFuel_mem_bounds :
    ∀ (fuel n B : ℕ), 0 < B → ∀ x ∈ lenChunksFuel fuel n B, 1 ≤ x ∧ x ≤ B := by
  intro fuel
  induction fuel with
  | zero => intro n B _ x hx; simp [lenChunksFuel] at hx
  | succ f ih =>
      intro n B hB x hx
      cases n with
      | zero => simp [lenChunksFuel] at hx
      | succ m =>
          simp only [lenChunksFuel, List.mem_cons] at hx
          rcases hx with h | h
          · subst h; constructor
            · omega
            · exact Nat.min_le_left _ _
          · exact ih (m + 1 - B) B hB x h

lemma lenChunksFuel_dropLast_eq :
    ∀ (fuel n B : ℕ), 0 < B → n ≤ fuel →
      ∀ x ∈ (lenChunksFuel fuel n B).dropLast, x = B := by
  intro fuel
  induction fuel with
  | zero =>
      intro n B _ hn x hx
      have : n = 0 := Nat.le_zero.mp hn
      subst this; simp [lenChunksFuel] at hx
  | succ f ih =>
      intro n B hB hn x hx
      cases n with
      | zero => simp [lenChunksFuel] at hx
      | succ m =>
          simp only [lenChunksFuel] at hx
          by_cases hrest : lenChunksFuel f (m + 1 - B) B = []
          · rw [hrest] at hx; simp at hx
          · rw [List.dropLast_cons_of_ne_nil hrest, List.mem_cons] at hx
            rcases hx with h | h
            · subst h
              -- the tail is nonempty, so B < m + 1 here
              have hlt : m + 1 - B ≠ 0 := by
                intro h0
                exact hrest (h0 ▸ lenChunksFuel_zero_n f B)
              have : B ≤ m + 1 := by omega
              omega
            · exact ih (m + 1 - B) B hB (by omega) x h

lemma line105_always_raises (n : ℕ) :
    line105_progress_message n =
      Except.error (if n = 0 then PyErr.unboundLocalError else PyErr.typeError) := by
  unfold line105_progress_message
  split <;> simp_all

/-- No execution of the body (even granting line 49) reaches the output
write: every run ends in an error — at the unchecked response lookups, at
`reversed(...)`, at a pop from an exhausted request list, or, if the batch
loop completes, unconditionally at the progress message of line 105. -/
lemma pipeline_from_line_50_fails (svc : TrafficRequest → PyV) (csvRows : List CsvRow)
    (output_filepath : Option String) (location_ID language_ID : ℤ)
    (today : PyDate) (batchSize : ℕ) (dir_path : String) :
    ∃ e, (pipeline_from_line_50 svc csvRows output_filepath location_ID language_ID
      today batchSize dir_path).outcome = Except.error e := by
  rcases hrb : runBatchesD svc location_ID language_ID
      ((_chunks (csvRows.map mkKeywordRequest) batchSize).length)
      (csvRows.map mkKeywordRequest) [] [] with ⟨log, res⟩
  cases res with
  | error e =>
      exact ⟨e, by simp [pipeline_from_line_50, hrb]⟩
  | ok st =>
      rcases st with ⟨reqs2, data2⟩
      refine ⟨if (_chunks (csvRows.map mkKeywordRequest) batchSize).length = 0
                then PyErr.unboundLocalError else PyErr.typeError, ?_⟩
      simp [pipeline_from_line_50, hrb, line105_always_raises]

/-- C3: for every list and positive chunk size, the chunks of `_chunks`
concatenate back to the input; every chunk except possibly the last has
length equal to the chunk size, every chunk has length in [1, chunk size];
a 500-element input at chunk size 500 gives one chunk, a 501-element input
gives two chunks of sizes 500 and 1. -/
theorem c3_chunks_partition {α : Type} (l : List α) (B : ℕ) (hB : 0 < B) :
    (_chunks l B).flatten = l
    ∧ (∀ c ∈ (_chunks l B).dropLast, c.length = B)
    ∧ (∀ c ∈ _chunks l B, 1 ≤ c.length ∧ c.length ≤ B)
    ∧ (l.length = 500 → B = 500 → (_chunks l B).map List.length = [500])
    ∧ (l.length = 501 → B = 500 → (_chunks l B).map List.length = [500, 1]) := by
  refine ⟨_chunks_flatten l B hB, ?_, ?_, ?_, ?_⟩
  · intro c hc
    have hmem : c.length ∈ ((_chunks l B).map List.length).dropLast := by
      rw [← List.map_dropLast]
      exact List.mem_map_of_mem List.length hc
    rw [_chunks_map_length] at hmem
    exact lenChunksFuel_dropLast_eq l.length l.length B hB le_rfl _ hmem
  · intro c hc
    have hmem : c.length ∈ (_chunks l B).map List.length :=
      List.mem_map_of_mem List.length hc
    rw [_chunks_map_length] at hmem
    exact lenChunksFuel_mem_bounds l.length l.length B hB _ hmem
  · intro h500 hB500
    rw [_chunks_map_length, h500, hB500]
    decide
  · intro h501 hB500
    rw [_chunks_map_length, h501, hB500]
    decide

/-- C3 witness: the partition law applied at a concrete list and chunk
size. -/
theorem c3_chunks_partition_witness :
    0 < 2
    ∧ ((_chunks [10, 11, 12] 2).flatten = [10, 11, 12]
       ∧ (∀ c ∈ (_chunks [10, 11, 12] 2).dropLast, c.length = 2)
       ∧ (∀ c ∈ _chunks [10, 11, 12] 2, 1 ≤ c.length ∧ c.length ≤ 2)
       ∧ (([10, 11, 12] : List ℕ).length = 500 → 2 = 500 →
            (_chunks [10, 11, 12] 2).map List.length = [500])
       ∧ (([10, 11, 12] : List ℕ).length = 501 → 2 = 500 →
            (_chunks [10, 11, 12] 2).map List.length = [500, 1])) :=
  ⟨by decide, c3_chunks_partition [10, 11, 12] 2 (by decide)⟩

/-- C4: the aggregator computes the six output metrics as the midpoint
formulas of the source (cost divided by 100000, average CPC by 1000000);
at the spec's example min/max pair it yields monthly impressions 4560,
monthly clicks 456, CTR 0.15, average CPC 1, cost 100 and average
position 3. -/
theorem c4_aggregation (kw : KeywordEstimateRequest) (e : KwEstimate) :
    (aggregate kw e).MonthlyImpressions =
        ((e.min.impressionsPerDay + e.max.impressionsPerDay) / 2) * (304 / 10)
    ∧ (aggregate kw e).MonthlyClicks =
        ((e.min.clicksPerDay + e.max.clicksPerDay) / 2) * (304 / 10)
    ∧ (aggregate kw e).CTR = (e.min.clickThroughRate + e.max.clickThroughRate) / 2
    ∧ (aggregate kw e).AverageCPC =
        ((e.min.averageCpcMicroAmount + e.max.averageCpcMicroAmount) / 2) / 1000000
    ∧ (aggregate kw e).Cost = ((e.min.totalCost + e.max.totalCost) / 2) / 100000
    ∧ (aggregate kw e).AveragePosition =
        (e.min.averagePosition + e.max.averagePosition) / 2
    ∧ (aggregate kw exampleEstimate).MonthlyImpressions = 4560
    ∧ (aggregate kw exampleEstimate).MonthlyClicks = 456
    ∧ (aggregate kw exampleEstimate).CTR = 15 / 100
    ∧ (aggregate kw exampleEstimate).AverageCPC = 1
    ∧ (aggregate kw exampleEstimate).Cost = 100
    ∧ (aggregate kw exampleEstimate).AveragePosition = 3 := by
  refine ⟨rfl, rfl, rfl, rfl, rfl, rfl, ?_, ?_, ?_, ?_, ?_, ?_⟩ <;>
    · simp only [aggregate, exampleEstimate, exampleMin, exampleMax]
      norm_num

/-- C6: at the input row (Type "EXACT", Keyword "shoes", Max CPC "0.5"),
the `microAmount` the loader stores is `1000000 * "0.5"` — Python string
repetition, a 3,000,000-character string — and is not the integer 500000
(nor any other integer) of micro-units the claim requires. -/
theorem c6_maxcpc_is_string_repetition :
    (mkKeywordRequest (CsvRow.mk "EXACT" "shoes" "0.5")).maxCpc.microAmount =
      PyNum.str (strRepeat 1000000 "0.5")
    ∧ ∀ n : ℤ,
        (mkKeywordRequest (CsvRow.mk "EXACT" "shoes" "0.5")).maxCpc.microAmount ≠
          PyNum.int n := by
  refine ⟨rfl, ?_⟩
  intro n h
  simp [mkKeywordRequest, pyNumMul] at h

/-- C7 counterexample: on a well-shaped response holding two per-keyword
estimates, the caller's extraction (lines 83-84) yields only the first
estimate record — not the full per-keyword estimate list the claim
describes — and the `reversed(...)` iteration of line 85 then fails with a
raw `TypeError`, not with any `EstimationServiceError` (no such class, and
no count check, exists in the source). -/
theorem c7_extraction_counterexample :
    extract_keyword_estimates
        (mkEstimatesResponse [sampleEstimateRecord1, sampleEstimateRecord2]) =
      Except.ok sampleEstimateRecord1
    ∧ extract_keyword_estimates_spec
        (mkEstimatesResponse [sampleEstimateRecord1, sampleEstimateRecord2]) =
      Except.ok (PyV.list [sampleEstimateRecord1, sampleEstimateRecord2])
    ∧ sampleEstimateRecord1 ≠ PyV.list [sampleEstimateRecord1, sampleEstimateRecord2]
    ∧ pyReversed sampleEstimateRecord1 = Except.error PyErr.typeError := by
  refine ⟨rfl, rfl, ?_, rfl⟩
  simp [sampleEstimateRecord1]

/-- C7 amended: for every estimate list, the caller's extraction on a
well-shaped response returns the first estimate entry (a raw `IndexError`
when the list is empty), while the spec's extraction returns the whole
list; a malformed response raises a raw `KeyError`.  Collaborator
exceptions propagate unwrapped (the call is not inside any try/except),
and no estimate-count check exists anywhere in the source. -/
theorem c7_extraction_takes_first_entry (kwEstimates : List PyV) :
    extract_keyword_estimates (mkEstimatesResponse kwEstimates) =
      (match kwEstimates.head? with
       | some e => Except.ok e
       | none => Except.error PyErr.indexError)
    ∧ extract_keyword_estimates_spec (mkEstimatesResponse kwEstimates) =
        Except.ok (PyV.list kwEstimates)
    ∧ pyGetKey (PyV.dict []) "campaignEstimates" = Except.error PyErr.keyError := by
  refine ⟨?_, rfl, rfl⟩
  cases kwEstimates <;> rfl

/-- C1: the ordering claim quantifies over successful runs, but the code
has none.  Every call raises NameError at line 49 (`os` is never
imported); and even granting that import, a service response of exactly
the spec's documented shape makes line 85 raise TypeError — `reversed(...)`
applied to the single record the trailing `[0]` of line 84 extracted — so
no output rows are ever produced, in any order. -/
theorem c1_no_successful_run :
    (∀ (svc : TrafficRequest → PyV) (rows : List CsvRow) (input_filepath : String)
        (output_filepath : Option String) (location_ID language_ID : ℤ)
        (today : PyDate) (batchSize : ℕ),
        get_traffic_estimates svc rows input_filepath output_filepath location_ID
          language_ID today batchSize = Except.error PyErr.nameError)
    ∧ (pipeline_from_line_50 (svcSpecShaped sampleEstimateRecord1)
        [CsvRow.mk "EXACT" "shoes" "0.5", CsvRow.mk "PHRASE" "red shoes" "1.2"]
        none 2826 1000 (PyDate.mk 11 10 2026) 500 "data").outcome =
      Except.error PyErr.typeError :=
  ⟨fun _ _ _ _ _ _ _ _ => rfl, rfl⟩

/-- C2: the completeness claim quantifies over successful runs, but the
body — even granting the missing `os` import — ends in an error on every
input, every service behaviour and every batch size: at the unchecked
lookups of lines 83-84, at the `reversed(...)` of line 85, at a pop from
an exhausted request list (line 86), or unconditionally at the progress
message of lines 105-106.  No run produces an output row count to compare
with the input. -/
theorem c2_no_successful_run :
    (∀ (svc : TrafficRequest → PyV) (rows : List CsvRow)
        (output_filepath : Option String) (location_ID language_ID : ℤ)
        (today : PyDate) (batchSize : ℕ) (dir_path : String),
        ∃ e, (pipeline_from_line_50 svc rows output_filepath location_ID language_ID
          today batchSize dir_path).outcome = Except.error e)
    ∧ (pipeline_from_line_50 (svcSpecShaped sampleEstimateRecord2)
        [CsvRow.mk "EXACT" "a" "1", CsvRow.mk "BROAD" "b" "2", CsvRow.mk "PHRASE" "c" "3"]
        (some "data/out.csv") 2826 1000 (PyDate.mk 11 10 2026) 2 "data").outcome =
      Except.error PyErr.typeError :=
  ⟨fun svc rows o l g t b d => pipeline_from_line_50_fails svc rows o l g t b d, rfl⟩

set_option maxRecDepth 10000 in
/-- C5: the two criteria and the one-service-call-per-batch shape match
the source, but the request submitted carries the entire request list:
on a 501-row input at the module batch size 500, the one request the run
manages to submit (before aborting at line 85) holds all 501 keyword
triples, while the first batch has 500 — line 72 passes
`keyword_estimate_requests`, never the chunk bound to the unused loop
variable `keywords`. -/
theorem c5_request_carries_entire_list :
    (pipeline_from_line_50 (svcSpecShaped sampleEstimateRecord1) rows501 none 2826 1000
        (PyDate.mk 11 10 2026) _MAX_KEYWORD_REQUESTS "data").requests_sent =
      [buildRequest (rows501.map mkKeywordRequest) 2826 1000]
    ∧ (rows501.map mkKeywordRequest).length = 501
    ∧ (_chunks (rows501.map mkKeywordRequest) _MAX_KEYWORD_REQUESTS).map List.length =
        [500, 1]
    ∧ buildRequest (rows501.map mkKeywordRequest) 2826 1000 =
        { campaignEstimateRequests :=
            [ { adGroupEstimateRequests :=
                  [ { keywordEstimateRequests := rows501.map mkKeywordRequest } ]
              , criteria := [ { xsi_type := "Location", id := 2826 }
                            , { xsi_type := "Language", id := 1000 } ] } ] }
    ∧ (501 : ℕ) ≠ 500 := by
  refine ⟨rfl, by simp [rows501], ?_, rfl, by decide⟩
  rw [_chunks_map_length]
  have hlen : (rows501.map mkKeywordRequest).length = 501 := by simp [rows501]
  rw [hlen]
  decide

/-- C8 counterexample: on zero input rows the run fails with NameError at
line 49 (`os` never imported), not with the spec's `EmptyResultError` —
no such class exists in the source. -/
theorem c8_empty_input_counterexample :
    get_traffic_estimates (svcSpecShaped sampleEstimateRecord1) [] "in.csv" none 2826 1000
        (PyDate.mk 11 10 2026) 500 = Except.error PyErr.nameError
    ∧ PyErr.nameError ≠ PyErr.emptyResultError :=
  ⟨rfl, by decide⟩

/-- C8 amended: a run on zero keyword rows fails before the output file is
opened — so no zero-row or header-only file is ever produced — but with
raw errors, never `EmptyResultError`: the call raises NameError at
line 49, and even granting the `os` import, the body runs zero batches and
raises UnboundLocalError at line 105 (the progress message reads the
never-assigned loop index), still before the line-111 field-name read. -/
theorem c8_empty_input_fails_before_output (svc : TrafficRequest → PyV)
    (input_filepath : String) (output_filepath : Option String)
    (location_ID language_ID : ℤ) (today : PyDate) (batchSize : ℕ) (dir_path : String) :
    get_traffic_estimates svc [] input_filepath output_filepath location_ID language_ID
        today batchSize = Except.error PyErr.nameError
    ∧ (pipeline_from_line_50 svc [] output_filepath location_ID language_ID today
        batchSize dir_path).outcome = Except.error PyErr.unboundLocalError :=
  ⟨rfl, rfl⟩

/-- C9: lines 108-110 do encode the claimed derivation — the supplied path
unchanged, otherwise "Keyword Traffic Estimates - <DD-MM-YYYY>.csv" joined
onto the input file's directory — but they are dead code: every call
raises NameError at line 49 before `dir_path` is ever bound, and even
granting the import the body aborts by line 105, so no run ever derives
or uses an output path. -/
theorem c9_output_path_never_derived :
    (∀ (dir_path : String) (today : PyDate),
        derive_output_filepath dir_path none today =
          os_path_join dir_path
            ("Keyword Traffic Estimates - " ++ strftime_dmY today ++ ".csv"))
    ∧ (∀ (dir_path p : String) (today : PyDate),
        derive_output_filepath dir_path (some p) today = p)
    ∧ os_path_join (os_path_dirname "data/kw.csv")
        ("Keyword Traffic Estimates - " ++ strftime_dmY (PyDate.mk 11 10 2026) ++ ".csv") =
      "data/Keyword Traffic Estimates - 11-10-2026.csv"
    ∧ (∀ (input_filepath : String),
        line49_dir_path input_filepath = Except.error PyErr.nameError)
    ∧ (pipeline_from_line_50 (svcSpecShaped sampleEstimateRecord1)
        [CsvRow.mk "EXACT" "kw" "2"] none 2826 1000 (PyDate.mk 11 10 2026) 500
        "data").outcome = Except.error PyErr.typeError :=
  ⟨fun _ _ => rfl, fun _ _ _ => rfl, by decide, fun _ => rfl, rfl⟩

/-- C10: line 88 does store the whole popped request record — match type,
keyword text and the max-CPC Money value — under the "Keyword" key of the
in-memory row, not the bare text; but no such row is ever written: the
call dies at line 49, and granting the import, a response of the spec's
shape raises TypeError at line 85 before line 88 runs, and every run
aborts by line 105 before the CSV writer. -/
theorem c10_keyword_record_never_written :
    (∀ (keyword : KeywordEstimateRequest) (estimate : KwEstimate),
        (aggregate keyword estimate).Keyword = keyword)
    ∧ get_traffic_estimates (svcSpecShaped sampleEstimateRecord2)
        [CsvRow.mk "BROAD" "hats" "0.7"] "in.csv" none 2826 1000
        (PyDate.mk 11 10 2026) 500 = Except.error PyErr.nameError
    ∧ (pipeline_from_line_50 (svcSpecShaped sampleEstimateRecord2)
        [CsvRow.mk "BROAD" "hats" "0.7"] none 2826 1000 (PyDate.mk 11 10 2026) 500
        "x").outcome = Except.error PyErr.typeError :=
  ⟨fun _ _ => rfl, rfl, rfl⟩
